import Mathlib

/-!
Shallow embedding of `speech_to_text_core.py` (speech-to-text pipeline core):
the timestamp formatter, the file fingerprinter (size + streamed SHA-1),
the transcript serializer `write_transcription`, the tqdm progress
interception of `transcribe_audio`, and the `update_model` maintenance
operation.  Machine reals (Python floats fed to `timedelta`) are modelled as
exact rationals with `timedelta`'s round-half-even normalisation to whole
microseconds; files are byte lists; the mutable `tqdm.tqdm` global is an
explicit piece of state threaded through the adapter.
-/

namespace SpeechToText

/-- Zero-padded decimal rendering of width 2, the model of Python `f"{x:02d}"`
for non-negative `x`. -/
def pad2 (x : Nat) : String :=
  let s := toString x
  String.mk (List.replicate (2 - s.length) '0') ++ s

/-- Zero-padded decimal rendering of width 3, the model of Python `f"{x:03d}"`
for non-negative `x`. -/
def pad3 (x : Nat) : String :=
  let s := toString x
  String.mk (List.replicate (3 - s.length) '0') ++ s

/-- Floor of a rational, written out on the numerator/denominator pair so that
it evaluates by kernel reduction. -/
def ratFloor (q : ℚ) : ℤ :=
  q.num / (q.den : ℤ)

/-- Round a rational to the nearest integer, ties to the even integer.  This is
the rounding CPython's `datetime.timedelta` applies when normalising a float
`seconds` argument to whole microseconds. -/
def roundHalfEven (q : ℚ) : ℤ :=
  let f := ratFloor q
  let frac := q - (f : ℚ)
  if frac < 1/2 then f
  else if 1/2 < frac then f + 1
  else if f % 2 = 0 then f else f + 1

/-- `format_timestamp` of `speech_to_text_core.py` lines 28–35.  The Python
code builds `td = timedelta(seconds=seconds)` and then reads `td.seconds`
(the whole seconds within the day, days discarded) and `td.microseconds`.
`timedelta` normalises the argument to a whole number of microseconds with
round-half-even, then splits it by floor division into days / seconds in
`[0, 86400)` / microseconds in `[0, 10^6)`. -/
def format_timestamp (seconds : ℚ) : String :=
  let usTotal : Int := roundHalfEven (seconds * 1000000)
  let td_seconds : Nat := ((usTotal / 1000000) % 86400).toNat
  let td_microseconds : Nat := (usTotal % 1000000).toNat
  let hours := td_seconds / 3600
  let minutes := td_seconds % 3600 / 60
  let secs := td_seconds % 60
  let milliseconds := td_microseconds / 1000
  pad2 hours ++ ":" ++ pad2 minutes ++ ":" ++ pad2 secs ++ "." ++ pad3 milliseconds

/-- Model of Python `str.strip()`: drop whitespace from both ends. -/
def pyStrip (s : String) : String :=
  String.mk (((s.data.dropWhile Char.isWhitespace).reverse.dropWhile Char.isWhitespace).reverse)

/-! ### File fingerprinter: size + streamed SHA-1 (lines 118–133)

A file on disk is modelled as `Option (List Nat)`: `some bytes` when the file
exists and is readable, `none` when `os.path.getsize` / `open` raise
`OSError`.  `hashlib.sha1` is Python's standard SHA-1; it is embedded below
in full (padding, message schedule, 80-round compression, hex digest). -/

/-- Truncate to a 32-bit word. -/
def w32 (n : Nat) : Nat := n % 4294967296

/-- Left-rotation of a 32-bit word by `s` bits (for `0 < s < 32`, on inputs
already below `2^32`). -/
def rotl (s n : Nat) : Nat := (n * 2 ^ s + n / 2 ^ (32 - s)) % 4294967296

/-- SHA-1 round function: choice / parity / majority / parity. -/
def sha1F (i b c d : Nat) : Nat :=
  if i < 20 then (b &&& c) ||| ((4294967295 - b) &&& d)
  else if i < 40 then b ^^^ c ^^^ d
  else if i < 60 then (b &&& c) ||| (b &&& d) ||| (c &&& d)
  else b ^^^ c ^^^ d

/-- SHA-1 round constants. -/
def sha1K (i : Nat) : Nat :=
  if i < 20 then 0x5A827999
  else if i < 40 then 0x6ED9EBA1
  else if i < 60 then 0x8F1BBCDC
  else 0xCA62C1D6

/-- Big-endian 64-bit length trailer of the SHA-1 padding. -/
def be64 (n : Nat) : List Nat :=
  [n / 2 ^ 56 % 256, n / 2 ^ 48 % 256, n / 2 ^ 40 % 256, n / 2 ^ 32 % 256,
   n / 2 ^ 24 % 256, n / 2 ^ 16 % 256, n / 2 ^ 8 % 256, n % 256]

/-- SHA-1 padding: `0x80`, zeros to 56 mod 64, then the bit length. -/
def sha1Pad (msg : List Nat) : List Nat :=
  let z := (119 - msg.length % 64) % 64
  msg ++ 128 :: List.replicate z 0 ++ be64 (8 * msg.length)

/-- Group a byte list into the 64-byte blocks SHA-1 processes. -/
def sha1Blocks (l : List Nat) : List (List Nat) :=
  match l with
  | [] => []
  | a :: rest => (a :: rest).take 64 :: sha1Blocks ((a :: rest).drop 64)
termination_by l.length
decreasing_by simp [List.length_drop]; omega

/-- Assemble big-endian 32-bit words from bytes. -/
def beWords : List Nat → List Nat
  | b0 :: b1 :: b2 :: b3 :: rest =>
      (((b0 * 256 + b1) * 256 + b2) * 256 + b3) :: beWords rest
  | _ => []

/-- Extend the 16 block words to the 80-word SHA-1 message schedule. -/
def sha1Schedule (ws : Array Nat) : Array Nat :=
  (List.range 64).foldl
    (fun a j =>
      let i := j + 16
      a.push (rotl 1 (a.getD (i - 3) 0 ^^^ a.getD (i - 8) 0 ^^^
                      a.getD (i - 14) 0 ^^^ a.getD (i - 16) 0)))
    ws

/-- The five 32-bit chaining words of SHA-1. -/
structure Sha1State where
  h0 : Nat
  h1 : Nat
  h2 : Nat
  h3 : Nat
  h4 : Nat
deriving DecidableEq

/-- SHA-1 compression of one 64-byte block. -/
def sha1Compress (st : Sha1State) (block : List Nat) : Sha1State :=
  let w := sha1Schedule (beWords block).toArray
  let final := (List.range 80).foldl
    (fun (s : Nat × Nat × Nat × Nat × Nat) i =>
      let (a, b, c, d, e) := s
      let temp := w32 (rotl 5 a + sha1F i b c d + e + sha1K i + w.getD i 0)
      (temp, a, rotl 30 b, c, d))
    (st.h0, st.h1, st.h2, st.h3, st.h4)
  let (a, b, c, d, e) := final
  ⟨w32 (st.h0 + a), w32 (st.h1 + b), w32 (st.h2 + c), w32 (st.h3 + d), w32 (st.h4 + e)⟩

/-- Lower-case hexadecimal digit. -/
def hexDigitChar (n : Nat) : Char :=
  if n < 10 then Char.ofNat (48 + n) else Char.ofNat (87 + n)

/-- Eight hex characters of a 32-bit word, most significant nibble first. -/
def hexWord (w : Nat) : List Char :=
  [hexDigitChar (w / 16 ^ 7 % 16), hexDigitChar (w / 16 ^ 6 % 16),
   hexDigitChar (w / 16 ^ 5 % 16), hexDigitChar (w / 16 ^ 4 % 16),
   hexDigitChar (w / 16 ^ 3 % 16), hexDigitChar (w / 16 ^ 2 % 16),
   hexDigitChar (w / 16 % 16), hexDigitChar (w % 16)]

/-- `hashlib.sha1(msg).hexdigest()`: full SHA-1 over a byte list, rendered as
40 lower-case hex characters. -/
def sha1_hex (msg : List Nat) : String :=
  let st := (sha1Blocks (sha1Pad msg)).foldl sha1Compress
    ⟨0x67452301, 0xEFCDAB89, 0x98BADCFE, 0x10325476, 0xC3D2E1F0⟩
  String.mk (hexWord st.h0 ++ hexWord st.h1 ++ hexWord st.h2 ++
             hexWord st.h3 ++ hexWord st.h4)

/-- The 8192-byte read chunks of `iter(lambda: af.read(8192), b'')` at
line 129. -/
def readChunks (l : List Nat) : List (List Nat) :=
  match l with
  | [] => []
  | a :: rest => (a :: rest).take 8192 :: readChunks ((a :: rest).drop 8192)
termination_by l.length
decreasing_by simp [List.length_drop]; omega

/-- The byte stream fed to the hash: concatenation of the chunks. -/
def concatChunks : List (List Nat) → List Nat
  | [] => []
  | c :: cs => c ++ concatChunks cs

/-- `os.path.getsize` under the `try/except OSError` of lines 120–123:
the byte size from filesystem metadata, or `0` when the file is missing. -/
def fingerprint_size : Option (List Nat) → Nat
  | some bytes => bytes.length
  | none => 0

/-- The streamed SHA-1 of lines 126–133: hash the file in 8192-byte chunks,
or return the empty string when `open` raises `OSError`. -/
def fingerprint_sha1 : Option (List Nat) → String
  | some bytes => sha1_hex (concatChunks (readChunks bytes))
  | none => ""

/-! ### Transcript serializer: `write_transcription` (lines 108–174) -/

/-- One Whisper segment, the dictionaries of `result['segments']`.  The Python
key `end` is a Lean keyword and is embedded as `stop`. -/
structure Segment where
  start : ℚ
  stop : ℚ
  text : String

/-- A Whisper transcription result as `write_transcription` consumes it: a
dict whose `language` and `segments` keys may each be absent (`result.get`
versus direct indexing distinguishes them). -/
structure TranscriptionResult where
  language : Option String
  segments : Option (List Segment)

/-- Python's rendering of `result.get('language')` inside an f-string:
`None` when the key is absent. -/
def pyOptStr : Option String → String
  | some s => s
  | none => "None"

/-- A raised Python exception, as far as the serializer can raise one. -/
inductive PyError
  | keyError (key : String)
deriving DecidableEq

/-- What a call to `write_transcription` leaves behind: the text written to
the output file before the call returned or raised, and the exception if one
was raised. -/
structure WriteOutcome where
  content : String
  error : Option PyError
deriving DecidableEq

/-- The Chinese conversion setup of lines 135–144: an `OpenCC` converter is
built only when a variant was requested and the detected language is `zh`;
otherwise the request is ignored with a console notice.  `opencc config` is
the external `OpenCC(config).convert` function, a black box. -/
def chinese_cc (opencc : String → String → String) (detected_lang : Option String)
    (chinese_conversion : Option String) : Option (String → String) :=
  match chinese_conversion with
  | none => none
  | some variant =>
      if detected_lang = some "zh" then
        some (opencc (if variant = "simplified" then "t2s" else "s2t"))
      else none

/-- `text = cc.convert(text) if cc else text`. -/
def apply_cc (cc : Option (String → String)) (text : String) : String :=
  match cc with
  | some c => c text
  | none => text

/-- The header writes of lines 148–154, in their exact order. -/
def transcription_header (filename : String) (file_size : Nat) (file_sha1 : String)
    (language : Option String) (nsegments : Nat) : String :=
  "filename: " ++ filename ++ "\n" ++
  "file_size: " ++ toString file_size ++ " bytes\n" ++
  "sha1: " ++ file_sha1 ++ "\n\n" ++
  "language: " ++ pyOptStr language ++ "\n" ++
  "segments: " ++ toString nsegments ++ "\n\n"

/-- One iteration of the timestamped body loop (lines 159–166). -/
def segment_block_ts (cc : Option (String → String)) (seg : Segment) : String :=
  let text := apply_cc cc (pyStrip seg.text)
  "[" ++ format_timestamp seg.start ++ " --> " ++ format_timestamp seg.stop ++ "]\n" ++
  text ++ "\n\n"

/-- One iteration of the plain body loop (lines 169–174): segments whose
stripped (and possibly converted) text is empty write nothing. -/
def segment_line_plain (cc : Option (String → String)) (seg : Segment) : String :=
  let text := apply_cc cc (pyStrip seg.text)
  if text = "" then "" else text ++ "\n"

/-- Sequential concatenation of the strings a loop writes. -/
def concatStrings : List String → String
  | [] => ""
  | s :: rest => s ++ concatStrings rest

/-- `write_transcription(result, output_file, audio_file, include_timestamps,
chinese_conversion)`, lines 108–174.  `audio_basename` is
`os.path.basename(audio_file)`; `audio_bytes` is the audio file's on-disk
content (`none` when unreadable).  The timestamped branch indexes
`result['segments']` directly and raises `KeyError` after the header has been
written when the key is absent; the header and the plain branch use
`result.get('segments', [])`. -/
def write_transcription (opencc : String → String → String)
    (result : TranscriptionResult) (audio_basename : String)
    (audio_bytes : Option (List Nat)) (include_timestamps : Bool)
    (chinese_conversion : Option String) : WriteOutcome :=
  let file_size := fingerprint_size audio_bytes
  let file_sha1 := fingerprint_sha1 audio_bytes
  let cc := chinese_cc opencc result.language chinese_conversion
  let header := transcription_header audio_basename file_size file_sha1
    result.language (result.segments.getD []).length
  if include_timestamps then
    match result.segments with
    | none => ⟨header, some (PyError.keyError "segments")⟩
    | some segs => ⟨header ++ concatStrings (segs.map (segment_block_ts cc)), none⟩
  else
    ⟨header ++ concatStrings ((result.segments.getD []).map (segment_line_plain cc)), none⟩

/-! ### Recognition engine adapter: tqdm interception in `transcribe_audio`
(lines 54–105)

The mutable global `tqdm.tqdm` is modelled as an explicit value threaded
through the call; the body of the `try:` block (model load and
`model.transcribe`) is a black-box function of that global which either
returns a result or raises. -/

/-- The value of the global `tqdm.tqdm` binding: either the library's own
class or the `CallbackTqdm` subclass installed at line 73, which wraps the
original and owns a callback. -/
inductive TqdmPrim
  | base (id : Nat)
  | callbackPatched (original : TqdmPrim) (cb : Nat)
deriving DecidableEq

/-- Result or raised exception of a Python call. -/
inductive PyOutcome (α : Type)
  | ok (a : α)
  | raised (msg : String)
deriving DecidableEq

/-- `transcribe_audio(audio_file, language_code, progress_callback)`, reduced
to its tqdm bookkeeping: save the original class when a callback is supplied,
install `CallbackTqdm`, run the engine body, and restore the original in the
`finally:` block whether the body returned or raised.  `engine_body` receives
the value of `tqdm.tqdm` in force during the call. -/
def transcribe_audio {α : Type} (progress_callback : Option Nat)
    (engine_body : TqdmPrim → PyOutcome α) (tqdm0 : TqdmPrim) :
    PyOutcome α × TqdmPrim :=
  let original_tqdm : Option TqdmPrim :=
    match progress_callback with
    | some _ => some tqdm0
    | none => none
  let patched : TqdmPrim :=
    match progress_callback with
    | some cb => TqdmPrim.callbackPatched tqdm0 cb
    | none => tqdm0
  let outcome := engine_body patched
  let restored : TqdmPrim :=
    match original_tqdm with
    | some orig => orig
    | none => patched
  (outcome, restored)

/-! ### Maintenance: `update_model` (lines 245–261) -/

/-- The filesystem state `update_model` touches after the download step:
the cached artifact at `~/.cache/whisper/base.pt` (or `$WHISPER_CACHE`),
whether `./models` exists, and the artifact at `./models/base.pt`. -/
structure MaintenanceFS where
  cache_model : Option (List Nat)
  models_dir_exists : Bool
  local_model : Option (List Nat)
deriving DecidableEq

/-- `update_model()` after `whisper.load_model("base")` has run: if the
cached artifact is absent, print an error and `sys.exit(1)`; otherwise
`os.makedirs("./models", exist_ok=True)` then `shutil.copy2` the artifact to
`./models/base.pt`. -/
def update_model (fs : MaintenanceFS) : Except Nat MaintenanceFS :=
  match fs.cache_model with
  | none => Except.error 1
  | some artifact =>
      Except.ok { fs with models_dir_exists := true, local_model := some artifact }

/-! ### Helper lemmas -/

theorem roundHalfEven_natCast (n : Nat) : roundHalfEven (n : ℚ) = n := by
  unfold roundHalfEven ratFloor
  simp only [Rat.num_natCast, Rat.den_natCast, Nat.cast_one, Int.ediv_one]
  norm_num

/-- The formatter on an exact whole number of microseconds, each field written
as a function of the total microsecond count.  `timedelta` discards whole
days, hence the `% 24` on the hours field. -/
theorem format_timestamp_microseconds (us : Nat) :
    format_timestamp ((us : ℚ) / 1000000) =
      pad2 (us / 3600000000 % 24) ++ ":" ++ pad2 (us / 60000000 % 60) ++ ":" ++
      pad2 (us / 1000000 % 60) ++ "." ++ pad3 (us / 1000 % 1000) := by
  have harg : ((us : ℚ) / 1000000) * 1000000 = (us : ℚ) := by field_simp
  have hr : roundHalfEven (((us : ℚ) / 1000000) * 1000000) = (us : ℤ) := by
    rw [harg]; exact roundHalfEven_natCast us
  simp only [format_timestamp, hr]
  have e1 : (((us : ℤ) / 1000000 % 86400).toNat) / 3600 = us / 3600000000 % 24 := by omega
  have e2 : (((us : ℤ) / 1000000 % 86400).toNat) % 3600 / 60 = us / 60000000 % 60 := by omega
  have e3 : (((us : ℤ) / 1000000 % 86400).toNat) % 60 = us / 1000000 % 60 := by omega
  have e4 : (((us : ℤ) % 1000000).toNat) / 1000 = us / 1000 % 1000 := by omega
  rw [e1, e2, e3, e4]

/-- Reading a file in 8192-byte chunks feeds the hash exactly the file's
content. -/
theorem concatChunks_readChunks (l : List Nat) : concatChunks (readChunks l) = l := by
  induction l using readChunks.induct with
  | case1 => rw [readChunks]; rfl
  | case2 a rest ih => rw [readChunks, concatChunks, ih, List.take_append_drop]

/-- A SHA-1 hex digest always has exactly 40 characters. -/
theorem sha1_hex_length (msg : List Nat) : (sha1_hex msg).length = 40 := by
  simp [sha1_hex, String.length_mk, hexWord]

theorem hexDigitChar_mem (x : Nat) : hexDigitChar (x % 16) ∈ ("0123456789abcdef").data := by
  have h : x % 16 < 16 := Nat.mod_lt _ (by norm_num)
  generalize hy : x % 16 = y at h
  interval_cases y <;> decide

theorem hexWord_mem (w : Nat) (c : Char) (hc : c ∈ hexWord w) :
    c ∈ ("0123456789abcdef").data := by
  fin_cases hc <;> exact hexDigitChar_mem _

/-- Every character of a SHA-1 hex digest is a lower-case hex digit. -/
theorem sha1_hex_chars (msg : List Nat) :
    ∀ c ∈ (sha1_hex msg).data, c ∈ ("0123456789abcdef").data := by
  intro c hc
  simp only [sha1_hex, List.mem_append] at hc
  rcases hc with ((((h | h) | h) | h) | h) <;> exact hexWord_mem _ _ h

/-- The plain (non-timestamp) body without conversion: one line per segment
whose stripped text is non-empty, in order, nothing else. -/
theorem plain_body_eq_filter (segs : List Segment) :
    concatStrings (segs.map (segment_line_plain none)) =
      concatStrings
        (((segs.map (fun s => pyStrip s.text)).filter (fun t => t != "")).map
          (fun t => t ++ "\n")) := by
  induction segs with
  | nil => rfl
  | cons s rest ih =>
      simp only [List.map_cons, List.filter_cons]
      by_cases h : pyStrip s.text = ""
      · simp only [segment_line_plain, apply_cc, h, if_pos, concatStrings, ih, bne_self_eq_false,
          Bool.false_eq_true, if_false, String.empty_append]
      · have hb : (pyStrip s.text != "") = true := by simp [bne, h]
        simp only [segment_line_plain, apply_cc, h, if_neg, hb, if_true, List.map_cons,
          concatStrings, ih]
        simp [h]

/-- The formatter at exactly 1.23 seconds. -/
theorem ft_123 : format_timestamp ((123 : ℚ)/100) = "00:00:01.230" := by
  have h : ((123 : ℚ)/100) = ((1230000:ℕ) : ℚ) / 1000000 := by norm_num
  rw [h, format_timestamp_microseconds]; decide

/-- The formatter at exactly 2.34 seconds. -/
theorem ft_234 : format_timestamp ((234 : ℚ)/100) = "00:00:02.340" := by
  have h : ((234 : ℚ)/100) = ((2340000:ℕ) : ℚ) / 1000000 := by norm_num
  rw [h, format_timestamp_microseconds]; decide

/-- The formatter at zero seconds. -/
theorem ft_0 : format_timestamp (0 : ℚ) = "00:00:00.000" := by
  have h : (0 : ℚ) = ((0:ℕ) : ℚ) / 1000000 := by norm_num
  rw [h, format_timestamp_microseconds]; decide

/-! ### Claims -/

/-- C1: serializing the `fr` result with the two segments `Bonjour` /
`le monde` and `want_timestamps = False` writes exactly the header block
(filename, file_size, sha1, blank, `language: fr`, `segments: 2`, blank)
followed by the two body lines `Bonjour` and `le monde` with no blank
separators; in general the plain body is one line per segment whose stripped
text is non-empty, empty-after-trim segments being omitted. -/
theorem write_transcription_plain_fr (opencc : String → String → String)
    (fname : String) (audio : Option (List Nat)) (res : TranscriptionResult)
    (segs : List Segment) (h : res.segments = some segs) :
    write_transcription opencc
        ⟨some "fr", some [⟨0, 123/100, "Bonjour"⟩, ⟨123/100, 234/100, "le monde"⟩]⟩
        fname audio false none =
      ⟨"filename: " ++ fname ++ "\nfile_size: " ++ toString (fingerprint_size audio) ++
       " bytes\nsha1: " ++ fingerprint_sha1 audio ++
       "\n\nlanguage: fr\nsegments: 2\n\nBonjour\nle monde\n", none⟩ ∧
    (write_transcription opencc res fname audio false none).content =
      transcription_header fname (fingerprint_size audio) (fingerprint_sha1 audio)
        res.language segs.length ++
      concatStrings (((segs.map (fun s => pyStrip s.text)).filter (fun t => t != "")).map
        (fun t => t ++ "\n")) := by
  constructor
  · simp only [write_transcription, transcription_header, chinese_cc, Option.getD,
      List.length_cons, List.length_nil, List.map_cons, List.map_nil, concatStrings,
      segment_line_plain, apply_cc, pyOptStr, Bool.false_eq_true, if_false]
    simp only [String.append_assoc]
    rfl
  · simp [write_transcription, chinese_cc, h, plain_body_eq_filter]

/-- C1 witness: the theorem applied at a concrete result. -/
theorem write_transcription_plain_fr_witness :
    (TranscriptionResult.segments ⟨some "fr",
        some [⟨0, 123/100, "Bonjour"⟩, ⟨123/100, 234/100, "le monde"⟩]⟩ =
      some [⟨0, 123/100, "Bonjour"⟩, ⟨123/100, 234/100, "le monde"⟩]) ∧
    (write_transcription (fun _ t => t)
        ⟨some "fr", some [⟨0, 123/100, "Bonjour"⟩, ⟨123/100, 234/100, "le monde"⟩]⟩
        "a.mp3" none false none =
      ⟨"filename: " ++ "a.mp3" ++ "\nfile_size: " ++ toString (fingerprint_size none) ++
       " bytes\nsha1: " ++ fingerprint_sha1 none ++
       "\n\nlanguage: fr\nsegments: 2\n\nBonjour\nle monde\n", none⟩) :=
  ⟨rfl, (write_transcription_plain_fr (fun _ t => t) "a.mp3" none
      ⟨some "fr", some [⟨0, 123/100, "Bonjour"⟩, ⟨123/100, 234/100, "le monde"⟩]⟩
      [⟨0, 123/100, "Bonjour"⟩, ⟨123/100, 234/100, "le monde"⟩] rfl).1⟩

/-- C2: with `want_timestamps = True` the serializer writes, for each segment
in list order, a `[<start> --> <end>]` line using the `HH:MM:SS.mmm`
formatter, then the stripped (and possibly script-converted) text line, then
a blank line; on the `fr` example this yields the two timestamped blocks. -/
theorem write_transcription_timestamps (opencc : String → String → String)
    (fname : String) (audio : Option (List Nat)) (ccv : Option String)
    (res : TranscriptionResult) (segs : List Segment) (h : res.segments = some segs) :
    write_transcription opencc res fname audio true ccv =
      ⟨transcription_header fname (fingerprint_size audio) (fingerprint_sha1 audio)
          res.language segs.length ++
        concatStrings (segs.map (fun seg =>
          "[" ++ format_timestamp seg.start ++ " --> " ++ format_timestamp seg.stop ++ "]\n" ++
          apply_cc (chinese_cc opencc res.language ccv) (pyStrip seg.text) ++ "\n\n")),
       none⟩ ∧
    write_transcription opencc
        ⟨some "fr", some [⟨0, 123/100, "Bonjour"⟩, ⟨123/100, 234/100, "le monde"⟩]⟩
        fname audio true none =
      ⟨"filename: " ++ fname ++ "\nfile_size: " ++ toString (fingerprint_size audio) ++
       " bytes\nsha1: " ++ fingerprint_sha1 audio ++
       "\n\nlanguage: fr\nsegments: 2\n\n[00:00:00.000 --> 00:00:01.230]\nBonjour\n\n" ++
       "[00:00:01.230 --> 00:00:02.340]\nle monde\n\n", none⟩ := by
  constructor
  · simp only [write_transcription, h, Option.getD]
    rfl
  · simp only [write_transcription, transcription_header, chinese_cc, Option.getD,
      List.length_cons, List.length_nil, List.map_cons, List.map_nil, concatStrings,
      segment_block_ts, apply_cc, pyOptStr, ft_0, ft_123, ft_234]
    simp only [String.append_assoc]
    rfl

/-- C2 witness: the theorem applied at a concrete result. -/
theorem write_transcription_timestamps_witness :
    (TranscriptionResult.segments ⟨some "fr",
        some [⟨0, 123/100, "Bonjour"⟩, ⟨123/100, 234/100, "le monde"⟩]⟩ =
      some [⟨0, 123/100, "Bonjour"⟩, ⟨123/100, 234/100, "le monde"⟩]) ∧
    write_transcription (fun _ t => t)
        ⟨some "fr", some [⟨0, 123/100, "Bonjour"⟩, ⟨123/100, 234/100, "le monde"⟩]⟩
        "a.mp3" none true none =
      ⟨transcription_header "a.mp3" (fingerprint_size none) (fingerprint_sha1 none)
          (some "fr") 2 ++
        concatStrings ([⟨0, 123/100, "Bonjour"⟩, ⟨123/100, 234/100, "le monde"⟩].map
          (fun (seg : Segment) =>
          "[" ++ format_timestamp seg.start ++ " --> " ++ format_timestamp seg.stop ++ "]\n" ++
          apply_cc (chinese_cc (fun _ t => t) (some "fr") none) (pyStrip seg.text) ++ "\n\n")),
       none⟩ :=
  ⟨rfl, (write_transcription_timestamps (fun _ t => t) "a.mp3" none none
      ⟨some "fr", some [⟨0, 123/100, "Bonjour"⟩, ⟨123/100, 234/100, "le monde"⟩]⟩
      [⟨0, 123/100, "Bonjour"⟩, ⟨123/100, 234/100, "le monde"⟩] rfl).1⟩

/-- C3: when the detected language is not `zh`, requesting any script variant
leaves the serialized output identical to a run with no conversion requested
(text unconverted), and no error is raised (when the segment list is
present). -/
theorem write_transcription_conversion_skipped (opencc : String → String → String)
    (res : TranscriptionResult) (fname : String) (audio : Option (List Nat))
    (incl : Bool) (variant : String) (h : res.language ≠ some "zh") :
    write_transcription opencc res fname audio incl (some variant) =
      write_transcription opencc res fname audio incl none ∧
    ∀ segs, res.segments = some segs →
      (write_transcription opencc res fname audio incl (some variant)).error = none := by
  have hcc : chinese_cc opencc res.language (some variant) = none := by
    simp [chinese_cc, h]
  have hcc2 : chinese_cc opencc res.language none = none := rfl
  constructor
  · simp only [write_transcription, hcc, hcc2]
  · intro segs hs
    cases incl <;> simp [write_transcription, hs]

/-- C3 witness: the theorem applied to a French result with a requested
`simplified` variant. -/
theorem write_transcription_conversion_skipped_witness :
    (TranscriptionResult.language ⟨some "fr", some [⟨0, 1, " Bonjour "⟩]⟩ ≠ some "zh") ∧
    write_transcription (fun _ t => t) ⟨some "fr", some [⟨0, 1, " Bonjour "⟩]⟩
        "a.mp3" none false (some "simplified") =
      write_transcription (fun _ t => t) ⟨some "fr", some [⟨0, 1, " Bonjour "⟩]⟩
        "a.mp3" none false none :=
  ⟨by decide,
   (write_transcription_conversion_skipped (fun _ t => t) ⟨some "fr", some [⟨0, 1, " Bonjour "⟩]⟩
      "a.mp3" none false "simplified" (by decide)).1⟩

/-- C4: the formatter's concrete values `0 ↦ 00:00:00.000`,
`60 ↦ 00:01:00.000`, `3600 ↦ 01:00:00.000`, `3723.456 ↦ 01:02:03.456`, and in
general (for microsecond-exact inputs below one day of hours) each field is
zero-padded and the milliseconds are the fractional part truncated at the
millisecond, never rounded up. -/
theorem format_timestamp_values :
    format_timestamp 0 = "00:00:00.000" ∧
    format_timestamp 60 = "00:01:00.000" ∧
    format_timestamp 3600 = "01:00:00.000" ∧
    format_timestamp (3723.456 : ℚ) = "01:02:03.456" ∧
    ∀ (n m : Nat), m < 1000000 →
      format_timestamp ((n : ℚ) + (m : ℚ) / 1000000) =
        pad2 (n / 3600 % 24) ++ ":" ++ pad2 (n % 3600 / 60) ++ ":" ++
        pad2 (n % 60) ++ "." ++ pad3 (m / 1000) := by
  refine ⟨?_, ?_, ?_, ?_, ?_⟩
  · have h : (0 : ℚ) = ((0:ℕ) : ℚ) / 1000000 := by norm_num
    rw [h, format_timestamp_microseconds]; decide
  · have h : (60 : ℚ) = ((60000000:ℕ) : ℚ) / 1000000 := by norm_num
    rw [h, format_timestamp_microseconds]; decide
  · have h : (3600 : ℚ) = ((3600000000:ℕ) : ℚ) / 1000000 := by norm_num
    rw [h, format_timestamp_microseconds]; decide
  · have h : (3723.456 : ℚ) = ((3723456000:ℕ) : ℚ) / 1000000 := by norm_num
    rw [h, format_timestamp_microseconds]; decide
  · intro n m hm
    have h : ((n : ℚ) + (m : ℚ) / 1000000) = ((n * 1000000 + m : ℕ) : ℚ) / 1000000 := by
      push_cast; field_simp
    rw [h, format_timestamp_microseconds]
    have e1 : (n * 1000000 + m) / 3600000000 % 24 = n / 3600 % 24 := by omega
    have e2 : (n * 1000000 + m) / 60000000 % 60 = n % 3600 / 60 := by omega
    have e3 : (n * 1000000 + m) / 1000000 % 60 = n % 60 := by omega
    have e4 : (n * 1000000 + m) / 1000 % 1000 = m / 1000 := by omega
    rw [e1, e2, e3, e4]

/-- C4 witness: 1.9996 seconds keeps milliseconds `999` (truncation, not
rounding). -/
theorem format_timestamp_values_witness :
    999600 < 1000000 ∧
    format_timestamp ((1 : ℕ) + ((999600 : ℕ) : ℚ) / 1000000) =
      pad2 (1 / 3600 % 24) ++ ":" ++ pad2 (1 % 3600 / 60) ++ ":" ++
      pad2 (1 % 60) ++ "." ++ pad3 (999600 / 1000) :=
  ⟨by decide, format_timestamp_values.2.2.2.2 1 999600 (by decide)⟩

/-- C5 counterexample: formatting 90000 seconds (25 h) yields hours `01`,
not `25` — `timedelta` discards whole days, so the hours field wraps. -/
theorem format_timestamp_90000_counterexample :
    format_timestamp 90000 = "01:00:00.000" ∧ format_timestamp 90000 ≠ "25:00:00.000" := by
  have h : (90000 : ℚ) = ((90000000000:ℕ) : ℚ) / 1000000 := by norm_num
  rw [h, format_timestamp_microseconds]
  constructor <;> decide

/-- C5 (amended): for every non-negative whole-microsecond input the hours
field is the number of whole hours modulo 24 (whole days are discarded);
formatting 90000 seconds yields `01:00:00.000`. -/
theorem format_timestamp_hours_wrap :
    (∀ us : Nat, format_timestamp ((us : ℚ) / 1000000) =
      pad2 (us / 3600000000 % 24) ++ ":" ++ pad2 (us / 60000000 % 60) ++ ":" ++
      pad2 (us / 1000000 % 60) ++ "." ++ pad3 (us / 1000 % 1000)) ∧
    format_timestamp 90000 = "01:00:00.000" := by
  refine ⟨format_timestamp_microseconds, ?_⟩
  have h : (90000 : ℚ) = ((90000000000:ℕ) : ℚ) / 1000000 := by norm_num
  rw [h, format_timestamp_microseconds]; decide

/-- C6: whenever the result carries a segment list, the serialized header
reports `segments: N` with `N` the length of the input list, in both
timestamp and plain modes, independent of how many body lines are skipped. -/
theorem write_transcription_segment_count (opencc : String → String → String)
    (res : TranscriptionResult) (fname : String) (audio : Option (List Nat))
    (incl : Bool) (ccv : Option String) (segs : List Segment)
    (h : res.segments = some segs) :
    ∃ body, (write_transcription opencc res fname audio incl ccv).content =
      transcription_header fname (fingerprint_size audio) (fingerprint_sha1 audio)
        res.language segs.length ++ body := by
  cases incl with
  | false =>
      exact ⟨concatStrings (segs.map (segment_line_plain (chinese_cc opencc res.language ccv))),
        by simp [write_transcription, h]⟩
  | true =>
      exact ⟨concatStrings (segs.map (segment_block_ts (chinese_cc opencc res.language ccv))),
        by simp [write_transcription, h]⟩

/-- C6 witness: a two-segment list, one of which is empty after stripping,
still reports `segments: 2`. -/
theorem write_transcription_segment_count_witness :
    (TranscriptionResult.segments ⟨some "en", some [⟨0, 1, ""⟩, ⟨1, 2, " hi "⟩]⟩ =
      some [⟨0, 1, ""⟩, ⟨1, 2, " hi "⟩]) ∧
    ∃ body, (write_transcription (fun _ t => t) ⟨some "en", some [⟨0, 1, ""⟩, ⟨1, 2, " hi "⟩]⟩
        "a.mp3" none false none).content =
      transcription_header "a.mp3" (fingerprint_size none) (fingerprint_sha1 none)
        (some "en") 2 ++ body :=
  ⟨rfl, write_transcription_segment_count (fun _ t => t)
    ⟨some "en", some [⟨0, 1, ""⟩, ⟨1, 2, " hi "⟩]⟩
    "a.mp3" none false none [⟨0, 1, ""⟩, ⟨1, 2, " hi "⟩] rfl⟩

/-- C7: fingerprinting never raises: an existing file's header records its
byte length and a 40-hex-character non-empty SHA-1 of its content computed
over 8192-byte chunks; a missing file records size 0 and an empty hash, and
the rest of the output is still written with no error. -/
theorem fingerprint_best_effort (bytes : List Nat) (opencc : String → String → String)
    (res : TranscriptionResult) (segs : List Segment) (fname : String)
    (incl : Bool) (ccv : Option String) (h : res.segments = some segs) :
    fingerprint_size (some bytes) = bytes.length ∧
    (fingerprint_sha1 (some bytes)).length = 40 ∧
    fingerprint_sha1 (some bytes) ≠ "" ∧
    fingerprint_sha1 (some bytes) = sha1_hex bytes ∧
    (∀ c ∈ (fingerprint_sha1 (some bytes)).data, c ∈ ("0123456789abcdef").data) ∧
    fingerprint_size none = 0 ∧
    fingerprint_sha1 none = "" ∧
    (∃ body, (write_transcription opencc res fname none incl ccv).content =
      transcription_header fname 0 "" res.language segs.length ++ body) ∧
    (write_transcription opencc res fname none incl ccv).error = none := by
  refine ⟨rfl, sha1_hex_length _, ?_, ?_, sha1_hex_chars _, rfl, rfl, ?_, ?_⟩
  · intro he
    have h40 : (fingerprint_sha1 (some bytes)).length = 40 := sha1_hex_length _
    rw [he] at h40
    simp at h40
  · show sha1_hex (concatChunks (readChunks bytes)) = sha1_hex bytes
    rw [concatChunks_readChunks]
  · cases incl with
    | false =>
        exact ⟨concatStrings (segs.map (segment_line_plain (chinese_cc opencc res.language ccv))),
          by simp [write_transcription, h, fingerprint_size, fingerprint_sha1]⟩
    | true =>
        exact ⟨concatStrings (segs.map (segment_block_ts (chinese_cc opencc res.language ccv))),
          by simp [write_transcription, h, fingerprint_size, fingerprint_sha1]⟩
  · cases incl <;> simp [write_transcription, h]

/-- C7 witness: the 3-byte file `abc` and the missing file. -/
theorem fingerprint_best_effort_witness :
    (TranscriptionResult.segments ⟨some "en", some [⟨0, 1, "hi"⟩]⟩ = some [⟨0, 1, "hi"⟩]) ∧
    fingerprint_size (some [97, 98, 99]) = 3 ∧
    (fingerprint_sha1 (some [97, 98, 99])).length = 40 ∧
    fingerprint_sha1 (some [97, 98, 99]) ≠ "" ∧
    fingerprint_size none = 0 ∧
    fingerprint_sha1 none = "" :=
  have hmain := fingerprint_best_effort [97, 98, 99] (fun _ t => t)
    ⟨some "en", some [⟨0, 1, "hi"⟩]⟩ [⟨0, 1, "hi"⟩] "a.mp3" false none rfl
  ⟨rfl, hmain.1, hmain.2.1, hmain.2.2.1, hmain.2.2.2.2.2.1, hmain.2.2.2.2.2.2.1⟩

/-- C8: `transcribe_audio` always hands back `tqdm.tqdm` equal to its value
before the call — whether the engine body returns or raises — installs the
callback subclass for the duration of the call exactly when a callback is
supplied, and never touches the global when no callback is supplied. -/
theorem transcribe_audio_tqdm_restored {α : Type} (cb : Option Nat)
    (engine_body : TqdmPrim → PyOutcome α) (g : TqdmPrim) :
    (transcribe_audio cb engine_body g).2 = g ∧
    (transcribe_audio none engine_body g).1 = engine_body g ∧
    (∀ c, (transcribe_audio (some c) engine_body g).1 =
      engine_body (TqdmPrim.callbackPatched g c)) ∧
    (∀ e, (transcribe_audio cb (fun _ => (PyOutcome.raised e : PyOutcome α)) g).2 = g) := by
  cases cb <;> simp [transcribe_audio]

/-- C9: `update_model` exits with code 1 exactly when the cached artifact is
absent after the download step; when present it ensures the models directory
exists and copies the artifact to the local model path. -/
theorem update_model_exit (fs : MaintenanceFS) :
    (fs.cache_model = none → update_model fs = Except.error 1) ∧
    (∀ a, fs.cache_model = some a →
      update_model fs = Except.ok ⟨some a, true, some a⟩) := by
  constructor
  · intro h; simp [update_model, h]
  · intro a h; simp [update_model, h]

/-- C9 witness: both the missing-artifact and present-artifact cases. -/
theorem update_model_exit_witness :
    (MaintenanceFS.cache_model ⟨none, false, none⟩ = none) ∧
    update_model ⟨none, false, none⟩ = Except.error 1 ∧
    (MaintenanceFS.cache_model ⟨some [1, 2, 3], false, none⟩ = some [1, 2, 3]) ∧
    update_model ⟨some [1, 2, 3], false, none⟩ =
      Except.ok ⟨some [1, 2, 3], true, some [1, 2, 3]⟩ :=
  ⟨rfl, (update_model_exit ⟨none, false, none⟩).1 rfl, rfl,
   (update_model_exit ⟨some [1, 2, 3], false, none⟩).2 [1, 2, 3] rfl⟩

/-- C10: on a result with no `segments` key, the plain mode writes the header
with `segments: 0` and an empty body and returns no error, while the
timestamp mode raises `KeyError('segments')` after the header has been
written. -/
theorem write_transcription_missing_segments (opencc : String → String → String)
    (res : TranscriptionResult) (fname : String) (audio : Option (List Nat))
    (ccv : Option String) (h : res.segments = none) :
    write_transcription opencc res fname audio false ccv =
      ⟨transcription_header fname (fingerprint_size audio) (fingerprint_sha1 audio)
        res.language 0, none⟩ ∧
    write_transcription opencc res fname audio true ccv =
      ⟨transcription_header fname (fingerprint_size audio) (fingerprint_sha1 audio)
        res.language 0,
       some (PyError.keyError "segments")⟩ := by
  constructor <;> simp [write_transcription, h, concatStrings, String.append_empty]

/-- C10 witness: a result without a segment list, in timestamp mode. -/
theorem write_transcription_missing_segments_witness :
    (TranscriptionResult.segments ⟨some "en", none⟩ = none) ∧
    write_transcription (fun _ t => t) ⟨some "en", none⟩ "a.mp3" none true none =
      ⟨transcription_header "a.mp3" (fingerprint_size none) (fingerprint_sha1 none)
        (some "en") 0,
       some (PyError.keyError "segments")⟩ :=
  ⟨rfl, (write_transcription_missing_segments (fun _ t => t) ⟨some "en", none⟩
    "a.mp3" none none rfl).2⟩

end SpeechToText
